import Mathlib

/-!
Verification of the activity ingestion pipeline of the `strava_data`
repository (file `strava_data.py` unless noted otherwise).

Each Python operation the claims depend on is shallowly embedded as an
executable Lean definition: pandas column operations become per-row or
per-list functions, floating-point values that may be non-finite become
the `PFloat` type, fallible operations return `Except`, and the stateful
token manager becomes an explicit state-passing function.  Machine floats
are idealised as rationals; `NaN` / `inf` are modelled explicitly where
the control flow depends on them.
-/

/-! ## Numeric helpers: numpy/pandas rounding and division semantics -/

/-- Round a rational to the nearest integer, halves to even
(the rounding mode of numpy, used by `Series.round`). -/
def rhe (q : ℚ) : ℤ :=
  let f := ⌊q⌋
  let r := q - (f : ℚ)
  if r < 1 / 2 then f
  else if 1 / 2 < r then f + 1
  else if f % 2 = 0 then f else f + 1

/-- `Series.round(n)`: round to `n` decimal places, halves to even. -/
def roundTo (n : ℕ) (q : ℚ) : ℚ := (rhe (q * 10 ^ n) : ℚ) / 10 ^ n

/-- A pandas float cell: a finite value, a signed infinity, or NaN. -/
inductive PFloat
  | val (q : ℚ)
  | inf
  | ninf
  | nan
deriving DecidableEq, Repr

/-- Elementwise pandas/numpy division.  Dividing a finite nonzero value by
zero yields a signed infinity and `0 / 0` yields NaN; no exception is
raised. -/
def pdiv : PFloat → PFloat → PFloat
  | .val a, .val b =>
      if b = 0 then (if 0 < a then .inf else if a < 0 then .ninf else .nan)
      else .val (a / b)
  | .nan, _ => .nan
  | _, .nan => .nan
  | .inf, .inf => .nan
  | .inf, .ninf => .nan
  | .ninf, .inf => .nan
  | .ninf, .ninf => .nan
  | .inf, .val b => if b < 0 then .ninf else .inf
  | .ninf, .val b => if b < 0 then .inf else .ninf
  | .val _, .inf => .val 0
  | .val _, .ninf => .val 0

/-- `Series.round(n)` on a possibly non-finite cell: infinities and NaN
pass through unchanged. -/
def pround (n : ℕ) : PFloat → PFloat
  | .val q => .val (roundTo n q)
  | x => x

/-! ## Writer: `Activities.save_activities` (strava_data.py lines 423-436)

A stored activity row is its `activity_id` plus an opaque payload standing
for all remaining columns. -/

structure ActivityRow where
  activity_id : ℤ
  payload : ℤ
deriving DecidableEq, Repr

/-- The `_merge` indicator column produced by `pd.merge(..., indicator=True)`
restricted to the two values a left join can produce. -/
inductive MergeTag
  | both
  | left_only
deriving DecidableEq, Repr

/-- `pd.merge(self.df, current, how='left', on='activity_id', indicator=True)`
where `current` holds only the `activity_id` column: each left row is paired
with one output row per matching id (tagged `both`), or with a single row
tagged `left_only` when no id matches. -/
def mergeLeftIndicator (df : List ActivityRow) (current : List ℤ) :
    List (ActivityRow × MergeTag) :=
  df.flatMap (fun b =>
    let ms := current.filter (fun a => decide (a = b.activity_id))
    if ms.isEmpty then [(b, MergeTag.left_only)]
    else ms.map (fun _ => (b, MergeTag.both)))

/-- `self.df.loc[self.df['_merge'] == 'left_only']` followed by dropping the
indicator column: keep the rows tagged `left_only`. -/
def keepLeftOnly (l : List (ActivityRow × MergeTag)) : List ActivityRow :=
  (l.filter (fun p => decide (p.2 = MergeTag.left_only))).map Prod.fst

/-- Result of one `save_activities` call: the rows appended to the
`activities` table, the table afterwards, and the optional CSV backup. -/
structure SaveResult where
  appended : List ActivityRow
  newStore : List ActivityRow
  backup : Option (List ActivityRow)
deriving Repr

/-- `Activities.save_activities`: read the persisted `activity_id`s, left
join with indicator, keep only the `left_only` rows, append them to the
table, and (when a backup path is given) write exactly those rows to CSV. -/
def save_activities (store : List ActivityRow) (df : List ActivityRow)
    (backup_csv : Bool) : SaveResult :=
  let current := store.map (fun r => r.activity_id)
  let kept := keepLeftOnly (mergeLeftIndicator df current)
  { appended := kept
    newStore := store ++ kept
    backup := if backup_csv then some kept else none }

/-- The fixed output column order set by `format_activities_df`
(strava_data.py lines 394-421). -/
def activityCols : List String :=
  ["activity_id", "athlete_id", "activity_type", "workout_type", "activity_date",
   "activity_name", "activity_description", "perceived_exertion", "athlete_count",
   "commute",
   "distance_miles", "distance_meters", "distance_km",
   "average_speed_ms", "min_per_mile", "max_speed_ms",
   "start_date", "start_date_local", "timezone", "moving_time", "elapsed_time",
   "end_date", "end_date_local", "hour_of_day", "day_of_week", "year_",
   "start_latitude", "start_longitude", "end_latitude", "end_longitude",
   "pr_count", "achievement_count",
   "has_heartrate", "heartrate", "max_heartrate", "calories",
   "elev_high", "elev_low", "total_elevation_gain",
   "average_watts", "kilojoules",
   "gear_id", "device_name", "upload_id", "external_id"]

/-- Effect of `save_activities` on the column list: the merge adds the
indicator column and `drop(columns=['_merge'])` removes it again. -/
def saveCols (cols : List String) : List String :=
  (cols ++ ["_merge"]).filter (fun c => decide (c ≠ "_merge"))

theorem mergeLeftIndicator_cons (b : ActivityRow) (df : List ActivityRow)
    (current : List ℤ) :
    mergeLeftIndicator (b :: df) current =
      (if (current.filter (fun a => decide (a = b.activity_id))).isEmpty then
        [(b, MergeTag.left_only)]
      else (current.filter (fun a => decide (a = b.activity_id))).map
        (fun _ => (b, MergeTag.both)))
      ++ mergeLeftIndicator df current := by
  simp [mergeLeftIndicator]

theorem keepLeftOnly_append (xs ys : List (ActivityRow × MergeTag)) :
    keepLeftOnly (xs ++ ys) = keepLeftOnly xs ++ keepLeftOnly ys := by
  simp [keepLeftOnly]

theorem keepLeftOnly_both (ms : List ℤ) (b : ActivityRow) :
    keepLeftOnly (ms.map (fun _ => (b, MergeTag.both))) = [] := by
  induction ms with
  | nil => rfl
  | cons m ms ih =>
    rw [List.map_cons]
    rw [show keepLeftOnly ((b, MergeTag.both) :: (ms.map (fun _ => (b, MergeTag.both)))) =
      keepLeftOnly (ms.map (fun _ => (b, MergeTag.both))) from by
        simp [keepLeftOnly, List.filter_cons]]
    exact ih

theorem filter_id_isEmpty (current : List ℤ) (x : ℤ) :
    (current.filter (fun a => decide (a = x))).isEmpty = true ↔ x ∉ current := by
  rw [List.isEmpty_iff, List.filter_eq_nil_iff]
  constructor
  · intro h hx
    exact h x hx (by simp)
  · intro h a ha
    simp only [decide_eq_true_eq]
    intro e
    exact h (e ▸ ha)

theorem saveFilter (current : List ℤ) (df : List ActivityRow) :
    keepLeftOnly (mergeLeftIndicator df current) =
      df.filter (fun r => decide (r.activity_id ∉ current)) := by
  induction df with
  | nil => rfl
  | cons b df ih =>
    rw [mergeLeftIndicator_cons, keepLeftOnly_append, List.filter_cons]
    by_cases hmem : b.activity_id ∈ current
    · have hne : ¬ ((current.filter (fun a => decide (a = b.activity_id))).isEmpty = true) := by
        rw [filter_id_isEmpty]
        simp [hmem]
      rw [if_neg hne, keepLeftOnly_both, List.nil_append, ih,
        if_neg (by simpa using hmem)]
    · rw [if_pos ((filter_id_isEmpty current b.activity_id).mpr hmem),
        if_pos (by simpa using hmem)]
      rw [show keepLeftOnly [(b, MergeTag.left_only)] = [b] from rfl, ih]
      rfl

/-- C1.  `save_activities` appends to the activities store exactly the rows
of the fetched batch `df` whose `activity_id` is not among the persisted
identifiers; when every id of the batch is already persisted it appends
zero rows (idempotence). -/
theorem c1_save_activities_appends_set_difference
    (store df : List ActivityRow) (b : Bool) :
    (save_activities store df b).appended =
      df.filter (fun r => decide (r.activity_id ∉ store.map (fun s => s.activity_id)))
    ∧ ((∀ r ∈ df, r.activity_id ∈ store.map (fun s => s.activity_id)) →
        (save_activities store df b).appended = []) := by
  constructor
  · exact saveFilter _ _
  · intro hall
    have h1 : (save_activities store df b).appended =
        df.filter (fun r => decide
          (r.activity_id ∉ store.map (fun s => s.activity_id))) :=
      saveFilter _ _
    rw [h1, List.filter_eq_nil_iff]
    intro r hr
    simp only [decide_eq_true_eq]
    exact not_not_intro (by simpa using hall r hr)

/-- C1 witness: with the single row `id 1` already persisted, saving a batch
whose only row has `id 1` appends nothing. -/
theorem c1_witness :
    (save_activities [⟨1, 0⟩] [⟨1, 5⟩] false).appended = [] :=
  (c1_save_activities_appends_set_difference [⟨1, 0⟩] [⟨1, 5⟩] false).2
    (by decide)

/-- C9.  With the backup option enabled, the backup contains exactly the rows
appended in that run (the batch minus already-persisted ids, hence never a
previously-persisted row), and the column order after the merge and the
`_merge` drop is the fixed documented order. -/
theorem c9_backup_exact_rows (store df : List ActivityRow) :
    (save_activities store df true).backup =
      some ((save_activities store df true).appended)
    ∧ (save_activities store df true).appended =
        df.filter (fun r => decide (r.activity_id ∉ store.map (fun s => s.activity_id)))
    ∧ saveCols activityCols = activityCols := by
  refine ⟨rfl, saveFilter _ _, by decide⟩

/-! ## AuthManager: `Activities.refresh_api_connection` / `check_expiry`
(strava_data.py lines 99-125)

The manager state is the fields set in `Activities.__init__` from the
refresh response: the access token, the expiry timestamp, plus an
instrumentation counter of refresh HTTP requests issued. -/

/-- Response of the OAuth token endpoint, as used by the code. -/
structure RefreshData where
  access_token : String
  expires_at : ℤ
deriving DecidableEq, Repr

structure AuthState where
  access_token : String
  token_expires : ℤ
  refresh_calls : ℕ
deriving DecidableEq, Repr

/-- `Activities.refresh_api_connection`: posts one refresh request to the
token endpoint (whose successful response is `oauth`) and returns the
response data together with the number of refresh HTTP calls it made.  It
does not itself update any field of the object. -/
def refresh_api_connection (oauth : RefreshData) : RefreshData × ℕ :=
  (oauth, 1)

/-- The token fields as `Activities.__init__` sets them from
`self.refresh_data = self.refresh_api_connection()`. -/
def init_auth (oauth : RefreshData) : AuthState :=
  let r := refresh_api_connection oauth
  { access_token := r.1.access_token
    token_expires := r.1.expires_at
    refresh_calls := r.2 }

/-- `Activities.check_expiry`: when `time.time() > self.token_expires` it
calls `self.refresh_api_connection()`; the returned refresh data is
discarded (source line 125 is a bare call), so only the instrumentation
counter changes.  Otherwise the state is untouched. -/
def check_expiry (s : AuthState) (now : ℤ) (oauth : RefreshData) : AuthState :=
  if s.token_expires < now then
    let r := refresh_api_connection oauth
    { s with refresh_calls := s.refresh_calls + r.2 }
  else s

/-- C2 (code behaviour at the failing input).  Starting authenticated with
token `old` expiring at 100, at `now = 200` with the token endpoint
returning token `new` expiring at 300, `check_expiry` issues exactly one
refresh call but the stored token and expiry are unchanged (the refresh
response is discarded), so the manager does not hold the new token; at
`now = 50` (not yet expired) zero refresh calls occur and the state is
unchanged, as the claim says. -/
theorem c2_check_expiry_discards_refresh :
    check_expiry ⟨"old", 100, 0⟩ 200 ⟨"new", 300⟩ = ⟨"old", 100, 1⟩
    ∧ (check_expiry ⟨"old", 100, 0⟩ 200 ⟨"new", 300⟩).access_token ≠ "new"
    ∧ (check_expiry ⟨"old", 100, 0⟩ 200 ⟨"new", 300⟩).token_expires ≠ 300
    ∧ check_expiry ⟨"old", 100, 0⟩ 50 ⟨"new", 300⟩ = ⟨"old", 100, 0⟩
    ∧ init_auth ⟨"new", 300⟩ = ⟨"new", 300, 1⟩ := by
  refine ⟨by decide, by decide, by decide, by decide, by decide⟩

/-! ## `Activities.get_activity_ids` (strava_data.py lines 212-221)

The fetched table is modelled as an association of column names to the
column values; the method checks column presence with `in self.df.columns`
and has no `else` branch, so it can fall through returning `None`. -/

def get_activity_ids (df : List (String × List ℤ)) : Option (List ℤ) :=
  if (df.map Prod.fst).contains "id" then df.lookup "id"
  else if (df.map Prod.fst).contains "activity_id" then df.lookup "activity_id"
  else none

/-- `for a_id in activities.get_activity_ids():` in `main`
(strava_data.py line 461): iterating over `None` raises a `TypeError`. -/
def iterate_ids : Option (List ℤ) → Except String (List ℤ)
  | none => .error "TypeError: NoneType object is not iterable"
  | some l => .ok l

/-- C10.  When the fetched table has neither an `id` nor an `activity_id`
column (in particular the empty-fetch table with no columns at all),
`get_activity_ids` returns `none` — not an empty list — and the `main`
loop that iterates over the result fails with a `TypeError`. -/
theorem c10_get_activity_ids_none (df : List (String × List ℤ))
    (hid : "id" ∉ df.map Prod.fst) (hact : "activity_id" ∉ df.map Prod.fst) :
    get_activity_ids df = none
    ∧ get_activity_ids df ≠ some []
    ∧ iterate_ids (get_activity_ids df) =
        .error "TypeError: NoneType object is not iterable" := by
  have h1 : get_activity_ids df = none := by
    rw [get_activity_ids, if_neg (by simpa using hid), if_neg (by simpa using hact)]
  exact ⟨h1, by rw [h1]; exact fun h => Option.noConfusion h, by rw [h1]; rfl⟩

/-- C10 witness: the empty table (zero activities fetched) has neither
column, and iterating the result fails. -/
theorem c10_witness :
    get_activity_ids [] = none
    ∧ get_activity_ids [] ≠ some []
    ∧ iterate_ids (get_activity_ids []) =
        .error "TypeError: NoneType object is not iterable" :=
  c10_get_activity_ids_none [] (by decide) (by decide)

/-! ## LocationResolver: `Activities.update_locations`
(strava_data.py lines 296-309, with `get_existing_locations` lines 145-152)

A fetched row contributes its `start_latitude` / `start_longitude` cells,
possibly missing (`None`/NaN, modelled as `Option`).  `drop_duplicates`
keeps the first occurrence of each pair; `dropna` removes rows with a
missing cell; the remaining pairs not in the persisted set each trigger
one `add_location` reverse-geocoding call, in order. -/

def dropDuplicates {α : Type} [DecidableEq α] : List α → List α
  | [] => []
  | x :: xs => x :: dropDuplicates (xs.filter (fun y => decide (y ≠ x)))
termination_by l => l.length
decreasing_by
  simp only [List.length_cons]
  have := List.length_filter_le (fun y => decide (y ≠ x)) xs
  omega

/-- `Activities.update_locations`: returns, in call order, the coordinate
pairs for which `add_location` (one reverse-geocoding call each) is
invoked. -/
def update_locations (rows : List (Option ℚ × Option ℚ))
    (existing : List (ℚ × ℚ)) : List (ℚ × ℚ) :=
  let dd := dropDuplicates rows
  let dn := dd.filterMap (fun p =>
    match p with
    | (some a, some b) => some (a, b)
    | _ => none)
  dn.filter (fun p => decide (p ∉ existing))

theorem mem_dropDuplicates {α : Type} [DecidableEq α] (l : List α) (a : α) :
    a ∈ dropDuplicates l → a ∈ l := by
  induction l using dropDuplicates.induct with
  | case1 => rw [dropDuplicates]; intro h; exact absurd h (List.not_mem_nil a)
  | case2 x xs ih =>
    rw [dropDuplicates]
    intro h
    rcases List.mem_cons.mp h with h | h
    · exact h ▸ List.mem_cons_self x xs
    · exact List.mem_cons_of_mem x (List.mem_of_mem_filter (ih h))

theorem dropDuplicates_nodup {α : Type} [DecidableEq α] (l : List α) :
    (dropDuplicates l).Nodup := by
  induction l using dropDuplicates.induct with
  | case1 => rw [dropDuplicates]; exact List.nodup_nil
  | case2 x xs ih =>
    rw [dropDuplicates]
    refine List.nodup_cons.mpr ⟨fun hx => ?_, ih⟩
    have := List.of_mem_filter (mem_dropDuplicates _ _ hx)
    simp at this

theorem update_locations_nodup (rows : List (Option ℚ × Option ℚ))
    (existing : List (ℚ × ℚ)) : (update_locations rows existing).Nodup := by
  refine List.Nodup.filter _ (List.Nodup.filterMap ?_ (dropDuplicates_nodup rows))
  intro p q c hp hq
  match p, q with
  | (some a, some b), (some a', some b') =>
    simp only [Option.mem_def, Option.some_inj] at hp hq
    rw [← hp] at hq
    simp only [Prod.mk.injEq] at hq
    rw [hq.1, hq.2]
  | (some _, none), _ => exact absurd hp (by simp)
  | (none, _), _ => exact absurd hp (by simp)
  | _, (some _, none) => exact absurd hq (by simp)
  | _, (none, _) => exact absurd hq (by simp)

/-- C7.  In one run, `update_locations` issues zero reverse-geocoding calls
for a coordinate pair already in the persisted set, and at most one call
per distinct (latitude, longitude) pair no matter how many fetched rows
share that pair. -/
theorem c7_update_locations_dedup (rows : List (Option ℚ × Option ℚ))
    (existing : List (ℚ × ℚ)) (p : ℚ × ℚ) :
    (p ∈ existing → p ∉ update_locations rows existing)
    ∧ @List.count (ℚ × ℚ) instBEqOfDecidableEq p (update_locations rows existing) ≤ 1 := by
  constructor
  · intro hp hmem
    have := List.of_mem_filter hmem
    simp only [decide_eq_true_eq] at this
    exact this hp
  · exact List.nodup_iff_count_le_one.mp (update_locations_nodup rows existing) p

/-- C7 witness: two rows sharing the pair (1, 2), a row with a missing
longitude, and a row with the already-persisted pair (3, 4): the run
geocodes (1, 2) once and (3, 4) never. -/
theorem c7_witness :
    ((3, 4) ∈ ([(3, 4)] : List (ℚ × ℚ)) →
      (3, 4) ∉ update_locations
        [(some 1, some 2), (some 1, some 2), (some 5, none), (some 3, some 4)]
        [(3, 4)])
    ∧ @List.count (ℚ × ℚ) instBEqOfDecidableEq (1, 2)
        (update_locations
          [(some 1, some 2), (some 1, some 2), (some 5, none), (some 3, some 4)]
          [(3, 4)]) ≤ 1 :=
  ⟨fun h => (c7_update_locations_dedup _ _ _).1 h,
   (c7_update_locations_dedup
      [(some 1, some 2), (some 1, some 2), (some 5, none), (some 3, some 4)]
      [(3, 4)] (1, 2)).2⟩

/-! ## Normalizer: `Activities.format_activities_df`
(strava_data.py lines 359-421, elementwise on each activity row)

`distance_miles` and `min_per_mile` are the per-row effect of the pandas
column assignments at lines 365-370; `end_latitude` / `end_longitude`
embed the `apply` lambdas at lines 371-372, whose `len(x)` raises a
`TypeError` when the cell holds a scalar NaN (a missing value) instead of
a list. -/

/-- The meters-to-miles factor `0.0006213712` of line 365. -/
def milesFactor : ℚ := 6213712 / 10 ^ 10

/-- Lines 365-366: `df['distance_miles'] = (df['distance'] * 0.0006213712).round(2)`. -/
def distance_miles (distance : ℚ) : ℚ := roundTo 2 (distance * milesFactor)

/-- Lines 369-370: `df['min_per_mile'] = ((df['moving_time'] / 60) /
df['distance_miles']).round(4)` — an unguarded elementwise division. -/
def min_per_mile (moving_time distance : ℚ) : PFloat :=
  pround 4 (pdiv (PFloat.val (moving_time / 60)) (PFloat.val (distance_miles distance)))

/-- The raw `end_latlng` cell: either a list (possibly empty or of the
wrong length) or a missing value, i.e. a scalar float NaN. -/
inductive EndVal
  | seq (xs : List ℚ)
  | scalarNaN
deriving DecidableEq, Repr

/-- Line 371: `df['end_latlng'].apply(lambda x: x[0] if len(x) == 2 else np.nan)`. -/
def end_latitude : EndVal → Except String (Option ℚ)
  | .seq xs => .ok (if xs.length = 2 then xs.head? else none)
  | .scalarNaN => .error "TypeError: object of type float has no len"

/-- Line 372: `df['end_latlng'].apply(lambda x: x[1] if len(x) == 2 else np.nan)`. -/
def end_longitude : EndVal → Except String (Option ℚ)
  | .seq xs => .ok (if xs.length = 2 then xs.get? 1 else none)
  | .scalarNaN => .error "TypeError: object of type float has no len"

/-- C5 counterexample.  A zero-distance activity (moving 60 s, 0 m) flows
through the same unguarded division as every other row and produces the
IEEE infinity that pandas emits for `x / 0`; there is no guard and no
explicitly handled boundary case, contradicting the claim that the
divide-by-zero branch is unreachable or explicitly handled. -/
theorem c5_counterexample :
    min_per_mile 60 0 = PFloat.inf
    ∧ min_per_mile 60 0 = pround 4 (pdiv (PFloat.val 1) (PFloat.val 0)) := by
  have hd : distance_miles 0 = 0 := by
    norm_num [distance_miles, roundTo, rhe, milesFactor]
  have h1 : min_per_mile 60 0 = PFloat.inf := by
    rw [min_per_mile, hd]
    norm_num [pdiv, pround]
  have h2 : pround 4 (pdiv (PFloat.val 1) (PFloat.val 0)) = PFloat.inf := by
    norm_num [pdiv, pround]
  exact ⟨h1, h1.trans h2.symm⟩

/-- C5 amended.  `min_per_mile` is the unguarded elementwise computation
`round4((moving_time / 60) / distance_miles)`: on a nonzero rounded mile
distance it is the claimed rounded quotient; on a zero mile distance the
pandas division semantics yield a non-finite value (`inf`, `-inf`, or
`NaN` by the sign of the numerator) without raising. -/
theorem c5_pace_amended (moving_time distance : ℚ) :
    (distance_miles distance ≠ 0 →
      min_per_mile moving_time distance =
        PFloat.val (roundTo 4 ((moving_time / 60) / distance_miles distance)))
    ∧ (distance_miles distance = 0 →
      min_per_mile moving_time distance =
        (if 0 < moving_time / 60 then PFloat.inf
         else if moving_time / 60 < 0 then PFloat.ninf else PFloat.nan)) := by
  constructor
  · intro h
    rw [min_per_mile, pdiv, if_neg h]
    rfl
  · intro h
    rw [min_per_mile, pdiv, if_pos h]
    by_cases h1 : 0 < moving_time / 60
    · rw [if_pos h1]
      rfl
    · rw [if_neg h1]
      by_cases h2 : moving_time / 60 < 0
      · rw [if_pos h2]
        rfl
      · rw [if_neg h2]
        rfl

/-- C5 witness: a 10000 m activity has a nonzero rounded mile distance and
gets the rounded quotient pace, while a 0 m activity of 60 s moving time
gets `inf`. -/
theorem c5_witness :
    (distance_miles 10000 ≠ 0
      ∧ min_per_mile 60 10000 =
          PFloat.val (roundTo 4 ((60 / 60) / distance_miles 10000)))
    ∧ (distance_miles 0 = 0 ∧ min_per_mile 60 0 = PFloat.inf) := by
  have hz : distance_miles 0 = 0 := by
    norm_num [distance_miles, roundTo, rhe, milesFactor]
  have hnz : distance_miles 10000 ≠ 0 := by
    norm_num [distance_miles, roundTo, rhe, milesFactor]
  refine ⟨⟨hnz, (c5_pace_amended 60 10000).1 hnz⟩, ⟨hz, ?_⟩⟩
  have h := (c5_pace_amended 60 0).2 hz
  rw [h]
  norm_num

/-- C6 counterexample.  On a missing `end_latlng` value (a scalar NaN, as
`pd.json_normalize` produces for an activity without that field) the
extraction lambdas call `len` on a float and raise a `TypeError` instead
of yielding null coordinates, contradicting the claim that every
non-two-component case gives null without error. -/
theorem c6_counterexample :
    end_latitude EndVal.scalarNaN =
      .error "TypeError: object of type float has no len"
    ∧ end_longitude EndVal.scalarNaN =
      .error "TypeError: object of type float has no len" := by
  refine ⟨rfl, rfl⟩

/-- C6 amended.  When the raw `end_latlng` cell is a list, the end
coordinates are its first and second components exactly when it has two
components, and both are null otherwise, without error; a missing
(scalar NaN) cell instead raises a `TypeError`. -/
theorem c6_end_coords_amended (xs : List ℚ) :
    (xs.length = 2 →
      end_latitude (EndVal.seq xs) = .ok xs.head?
      ∧ end_longitude (EndVal.seq xs) = .ok (xs.get? 1))
    ∧ (xs.length ≠ 2 →
      end_latitude (EndVal.seq xs) = .ok none
      ∧ end_longitude (EndVal.seq xs) = .ok none) := by
  constructor
  · intro h
    rw [end_latitude, end_longitude, if_pos h, if_pos h]
    exact ⟨rfl, rfl⟩
  · intro h
    rw [end_latitude, end_longitude, if_neg h, if_neg h]
    exact ⟨rfl, rfl⟩

/-- C6 witness: a two-component cell yields its components; a
three-component cell yields null coordinates. -/
theorem c6_witness :
    (end_latitude (EndVal.seq [3, 4]) = .ok (some 3)
      ∧ end_longitude (EndVal.seq [3, 4]) = .ok (some 4))
    ∧ (end_latitude (EndVal.seq [3, 4, 5]) = .ok none
      ∧ end_longitude (EndVal.seq [3, 4, 5]) = .ok none) :=
  ⟨(c6_end_coords_amended [3, 4]).1 (by decide),
   (c6_end_coords_amended [3, 4, 5]).2 (by decide)⟩

/-! ## ActivityFetcher: `Activities.get_activities`
(strava_data.py lines 163-210)

Date-like values (a `yyyy-mm-dd` string, a `datetime`, a `date`) are
modelled with the epoch timestamp their Python conversion would produce;
the constructor records which Python type the value has, because the
conversion block branches on `isinstance`.  A request parameter is either
a converted numeric epoch or a raw unconverted Python object (the code can
send the latter when the conversion block misfires). -/

inductive TimeLike
  | tstr (epoch : ℤ)
  | tdatetime (epoch : ℤ)
  | tdate (epoch : ℤ)
deriving DecidableEq, Repr

def TimeLike.toEpoch : TimeLike → ℤ
  | .tstr e => e
  | .tdatetime e => e
  | .tdate e => e

inductive ParamVal
  | epoch (t : ℤ)
  | rawTime (t : TimeLike)
deriving DecidableEq, Repr

/-- The `after` / `before` conversion block (lines 181-194).  The `after`
block converts `after` in place.  The `before` block converts a string
`before` in place, but in its `datetime` and `date` branches the converted
timestamp is assigned to `after` (lines 192 and 194), leaving `before` as
the raw object. -/
def convertTimes (after before : Option TimeLike) :
    Option ParamVal × Option ParamVal :=
  let a := after.map (fun t => ParamVal.epoch t.toEpoch)
  match before with
  | none => (a, none)
  | some (.tstr e) => (a, some (.epoch e))
  | some (.tdatetime e) => (some (.epoch e), some (.rawTime (.tdatetime e)))
  | some (.tdate e) => (some (.epoch e), some (.rawTime (.tdate e)))

/-- Keyword arguments of one `get_activities` call (`none` = not passed). -/
structure Kwargs where
  after : Option TimeLike
  before : Option TimeLike
  per_page : Option ℕ
  page : Option ℕ
deriving Repr

/-- Parameters of one GET request to the activity-list endpoint. -/
structure Request where
  after : Option ParamVal
  before : Option ParamVal
  per_page : ℕ
  page : ℕ
deriving DecidableEq, Repr

/-- `Activities.get_activities`: resolve kwargs against the defaults
(`after` falls back to the stored cursor `latest`, `per_page` to 200,
`page` to 1), convert the date bounds, issue the request, and when the
page is non-empty concatenate it onto the accumulator and recurse passing
only `page=page+1`.  `server` maps a request to the page of activity ids
the API returns; `fuel` bounds the unbounded Python recursion, `none`
meaning the bound was hit.  Returns the requests issued in order and the
final accumulated table. -/
def get_activities (latest : Option TimeLike) (server : Request → List ℤ) :
    ℕ → Kwargs → List ℤ → Option (List Request × List ℤ)
  | 0, _, _ => none
  | fuel + 1, kw, df =>
    let after := match kw.after with
      | some a => some a
      | none => latest
    let pp := kw.per_page.getD 200
    let page := kw.page.getD 1
    let c := convertTimes after kw.before
    let req : Request := ⟨c.1, c.2, pp, page⟩
    let data := server req
    if 0 < data.length then
      match get_activities latest server fuel ⟨none, none, none, some (page + 1)⟩ (df ++ data) with
      | none => none
      | some (reqs, final) => some (req :: reqs, final)
    else
      some ([req], df)

/-- A server with one non-empty page: page 1 returns activity 11, every
later page is empty. -/
def srvOnePage : Request → List ℤ := fun r => if r.page = 1 then [11] else []

/-- The always-empty server (athlete with no new activities). -/
def srvEmpty : Request → List ℤ := fun _ => []

/-- C3 counterexample.  A retrieval with an explicit `before` bound issues
its second page request with `before = None` (and the default cursor and
page size), because the recursive call passes only the page number: the
after/before constraints are not the same on every page of the
retrieval. -/
theorem c3_counterexample :
    get_activities none srvOnePage 5 ⟨none, some (.tstr 100), none, none⟩ [] =
      some ([⟨none, some (.epoch 100), 200, 1⟩, ⟨none, none, 200, 2⟩], [11])
    ∧ (⟨none, some (.epoch 100), 200, 1⟩ : Request).before ≠
      (⟨none, none, 200, 2⟩ : Request).before := by
  refine ⟨by decide, by decide⟩

/-- The request a default-kwargs call (only `page` possibly set) issues:
`after` is the stored cursor, `before` is absent, `per_page` is 200. -/
def defaultReq (latest : Option TimeLike) (page : ℕ) : Request :=
  ⟨(convertTimes latest none).1, (convertTimes latest none).2, 200, page⟩

theorem convertTimes_none_snd (a : Option TimeLike) :
    (convertTimes a none).2 = none := rfl

theorem get_activities_succ (latest : Option TimeLike) (server : Request → List ℤ)
    (fuel : ℕ) (p0 : Option ℕ) (df : List ℤ) :
    get_activities latest server (fuel + 1) ⟨none, none, none, p0⟩ df =
      if 0 < (server (defaultReq latest (p0.getD 1))).length then
        match get_activities latest server fuel ⟨none, none, none, some (p0.getD 1 + 1)⟩
            (df ++ server (defaultReq latest (p0.getD 1))) with
        | none => none
        | some (reqs, final) => some (defaultReq latest (p0.getD 1) :: reqs, final)
      else some ([defaultReq latest (p0.getD 1)], df) := rfl

/-- C3 amended.  For a retrieval whose kwargs supply at most a starting page
(in particular the default `main` invocation), the page number of the
`i`-th request is the starting page plus `i`, every request carries the
default constraints (`after` = the converted stored cursor, no `before`,
`per_page` 200), every page but the last returns at least one record, the
last page returns zero records, and the accumulated result is the
concatenation of all returned pages; with explicitly supplied
after/before/per_page kwargs this constancy fails (see the
counterexample), since the recursive call passes only the page number. -/
theorem c3_pagination_amended (latest : Option TimeLike) (server : Request → List ℤ)
    (fuel : ℕ) (p0 : Option ℕ) (df : List ℤ) (reqs : List Request) (final : List ℤ)
    (h : get_activities latest server fuel ⟨none, none, none, p0⟩ df = some (reqs, final)) :
    (∀ i r, reqs[i]? = some r →
      r.page = p0.getD 1 + i ∧ r.after = (convertTimes latest none).1
      ∧ r.before = none ∧ r.per_page = 200)
    ∧ (∀ i r, reqs[i]? = some r → i + 1 < reqs.length → server r ≠ [])
    ∧ (∃ rl, reqs.getLast? = some rl ∧ server rl = [])
    ∧ final = df ++ (reqs.map server).flatten := by
  induction fuel generalizing p0 df reqs final with
  | zero =>
    rw [show get_activities latest server 0 ⟨none, none, none, p0⟩ df = none from rfl] at h
    exact Option.noConfusion h
  | succ fuel ih =>
    rw [get_activities_succ] at h
    by_cases hlen : 0 < (server (defaultReq latest (p0.getD 1))).length
    · rw [if_pos hlen] at h
      cases hrec : get_activities latest server fuel ⟨none, none, none, some (p0.getD 1 + 1)⟩
          (df ++ server (defaultReq latest (p0.getD 1))) with
      | none =>
        rw [hrec] at h
        exact Option.noConfusion h
      | some pr =>
        obtain ⟨reqs', final'⟩ := pr
        rw [hrec] at h
        simp only [Option.some.injEq, Prod.mk.injEq] at h
        obtain ⟨hr, hf⟩ := h
        subst hf
        obtain ⟨ih1, ih2, ⟨rl, hrl, hsrv⟩, ih4⟩ := ih (some (p0.getD 1 + 1)) _ _ _ hrec
        subst hr
        refine ⟨?_, ?_, ?_, ?_⟩
        · intro i r hi
          cases i with
          | zero =>
            rw [List.getElem?_cons_zero, Option.some.injEq] at hi
            subst hi
            exact ⟨rfl, rfl, rfl, rfl⟩
          | succ j =>
            rw [List.getElem?_cons_succ] at hi
            obtain ⟨hp, ha, hb, hpp⟩ := ih1 j r hi
            refine ⟨?_, ha, hb, hpp⟩
            rw [hp]
            simp only [Option.getD_some]
            omega
        · intro i r hi _
          cases i with
          | zero =>
            rw [List.getElem?_cons_zero, Option.some.injEq] at hi
            subst hi
            exact List.ne_nil_of_length_pos hlen
          | succ j =>
            rw [List.getElem?_cons_succ] at hi
            rename_i hlt
            rw [List.length_cons] at hlt
            exact ih2 j r hi (by omega)
        · cases reqs' with
          | nil => exact Option.noConfusion hrl
          | cons b l =>
            refine ⟨rl, ?_, hsrv⟩
            rw [List.getLast?_cons_cons]
            exact hrl
        · rw [ih4, List.map_cons]
          simp [List.append_assoc]
    · rw [if_neg hlen] at h
      simp only [Option.some.injEq, Prod.mk.injEq] at h
      obtain ⟨hr, hf⟩ := h
      subst hf
      subst hr
      have hdata : server (defaultReq latest (p0.getD 1)) = [] := by
        rw [← List.length_eq_zero]
        omega
      refine ⟨?_, ?_, ⟨defaultReq latest (p0.getD 1), rfl, hdata⟩, ?_⟩
      · intro i r hi
        cases i with
        | zero =>
          rw [List.getElem?_cons_zero, Option.some.injEq] at hi
          subst hi
          exact ⟨rfl, rfl, rfl, rfl⟩
        | succ j =>
          rw [List.getElem?_cons_succ, List.getElem?_nil] at hi
          exact Option.noConfusion hi
      · intro i r hi hlt
        rw [List.length_singleton] at hlt
        omega
      · rw [List.map_singleton]
        simp [hdata]

/-- C3 witness: the always-empty server under the default invocation: one
request is issued, it is the last page, it returns zero records, and the
accumulated result is the (empty) concatenation of the pages. -/
theorem c3_witness :
    (∃ rl, ([defaultReq none 1] : List Request).getLast? = some rl ∧ srvEmpty rl = [])
    ∧ ([] : List ℤ) = [] ++ (([defaultReq none 1].map srvEmpty).flatten) := by
  have h := c3_pagination_amended none srvEmpty 1 none [] [defaultReq none 1] [] rfl
  exact ⟨h.2.2.1, h.2.2.2⟩

/-- C4 (code behaviour at the failing input).  With `before` supplied as a
`datetime` (or a `date`), the conversion block assigns the converted epoch
to `after` (source lines 192 and 194) and sends `before` as the raw
unconverted object: the issued request is not the one the claim describes
(before = converted epoch, after untouched).  With `before` supplied as a
`yyyy-mm-dd` string the request is as claimed. -/
theorem c4_before_datetime_clobbers_after :
    get_activities none srvEmpty 5 ⟨none, some (.tdatetime 1609459200), none, none⟩ [] =
      some ([⟨some (.epoch 1609459200), some (.rawTime (.tdatetime 1609459200)), 200, 1⟩], [])
    ∧ get_activities none srvEmpty 5 ⟨none, some (.tdate 737791), none, none⟩ [] =
      some ([⟨some (.epoch 737791), some (.rawTime (.tdate 737791)), 200, 1⟩], [])
    ∧ get_activities none srvEmpty 5 ⟨none, some (.tstr 1609459200), none, none⟩ [] =
      some ([⟨none, some (.epoch 1609459200), 200, 1⟩], [])
    ∧ (⟨some (.epoch 1609459200), some (.rawTime (.tdatetime 1609459200)), 200, 1⟩ : Request) ≠
      ⟨none, some (.epoch 1609459200), 200, 1⟩ := by
  refine ⟨by decide, by decide, by decide, by decide⟩

/-! ## SplitCalculator (spec section 4.4)

No split-to-mile-marker calculator exists in the source files
(`strava_data.py` only stores the raw split rows), so the component is
modelled from the specification text. -/

/-- Modelled from the spec: a metric split segment with its distance in
meters and its moving time in seconds (spec section 4.4 input). -/
structure Segment where
  distance : ℚ
  time : ℚ
deriving DecidableEq, Repr

/-- Modelled from the spec: the SplitCalculator loop of section 4.4, which
is missing from the source.  `mc` is the running mile counter (starting
at 1).  For each segment, the moving time is converted to minutes; a
segment under 1600 m records the fractional marker `(mc - 1) + fraction`
with pace `time / fraction` when `fraction = distance / 1609` is positive
and records nothing when it is zero; a segment of at least 1600 m records
marker `mc` with pace equal to its minutes; the counter increments after
every segment. -/
def splitMarkersAux (mc : ℕ) : List Segment → List (ℚ × ℚ)
  | [] => []
  | s :: rest =>
    (if s.distance < 1600 then
      (if 0 < s.distance / 1609 then
        [(((mc : ℚ) - 1) + s.distance / 1609, (s.time / 60) / (s.distance / 1609))]
      else [])
    else [((mc : ℚ), s.time / 60)]) ++ splitMarkersAux (mc + 1) rest

/-- Modelled from the spec: the marker-to-pace mapping, in insertion
order, produced by the SplitCalculator on an ordered segment list. -/
def splitMarkers (segs : List Segment) : List (ℚ × ℚ) := splitMarkersAux 1 segs

/-- Modelled from the spec: the fastest mile is the marker with minimum
pace, ties broken by the first occurrence in iteration order. -/
def fastestMile : List (ℚ × ℚ) → Option (ℚ × ℚ)
  | [] => none
  | m :: ms => some (ms.foldl (fun best x => if x.2 < best.2 then x else best) m)

/-- C8 counterexample.  On the segments `[{1609 m, 420 s}, {800 m, 200 s}]`
the calculator records the second marker at `1 + 800/1609 = 2409/1609`
(about 1.4972, not 1.5) with pace `(200/60)/(800/1609) = 1609/240` (about
6.7042, not `round(200/60/0.497, 4) = 6.7069`), so the claimed exact
marker set `{1 : 7.0, 1.5 : round(200/60/0.497, 4)}` is not what the
section 4.4 algorithm yields. -/
theorem c8_counterexample :
    splitMarkers [⟨1609, 420⟩, ⟨800, 200⟩] = [(1, 7), (2409 / 1609, 1609 / 240)]
    ∧ (2409 : ℚ) / 1609 ≠ 3 / 2
    ∧ (1609 : ℚ) / 240 ≠ roundTo 4 ((200 / 60) / (497 / 1000)) := by
  refine ⟨?_, by norm_num, ?_⟩
  · norm_num [splitMarkers, splitMarkersAux]
  · norm_num [roundTo, rhe]

/-- C8 amended.  On `[{1609 m, 420 s}, {800 m, 200 s}]` the spec-modelled
calculator yields exactly the markers `{1 : 7, 2409/1609 : 1609/240}`
(the second being `(mile_counter - 1) + 800/1609` with pace
`minutes / fraction`, as the claim itself parenthesises); its fastest mile
is the marker with minimum pace, and a tie is broken by the first
occurrence in iteration order. -/
theorem c8_split_markers_amended :
    splitMarkers [⟨1609, 420⟩, ⟨800, 200⟩] = [(1, 7), (2409 / 1609, 1609 / 240)]
    ∧ fastestMile (splitMarkers [⟨1609, 420⟩, ⟨800, 200⟩]) =
        some (2409 / 1609, 1609 / 240)
    ∧ fastestMile [(1, 5), (2, 5)] = some (1, 5) := by
  have h1 : splitMarkers [⟨1609, 420⟩, ⟨800, 200⟩] =
      [(1, 7), (2409 / 1609, 1609 / 240)] := by
    norm_num [splitMarkers, splitMarkersAux]
  refine ⟨h1, ?_, ?_⟩
  · rw [h1, fastestMile]
    norm_num
  · rw [fastestMile]
    norm_num
